import Mathlib

/-
Verification of the execution orchestration layer of ecoa-tools
(src/app/services/executor.py) against its natural-language specification.

The Python code is shallowly embedded: every Python function of the core
(ToolExecutor.execute, ToolExecutor.execute_in_project,
ToolExecutor._find_output_files, ToolExecutor._get_message,
ToolExecutor._find_cmakelists_dir, ToolExecutor.compile_project) becomes a
Lean definition of the same name.  File-system state, subprocess outcomes
and timestamps are passed in explicitly as environment records; machine
integers (process exit codes, verbosity levels) are modelled as Int, and
fallible code returns Except.
-/

namespace Ecoa

/-- Truthiness of an optional Python string: None and the empty string are
falsy, every other string is truthy (used for checks such as
the source line 499 check on config_file and line 513 / 517 checks). -/
def pyTruthy : Option String → Bool
  | none => false
  | some s => !(s == "")

/-- Unwrap an optional string at a point where the source has already
established truthiness (so the value exists and is nonempty). -/
def pyGet (o : Option String) : String := o.getD ""

/-- Lexicographic comparison of strings by code point, the order used by
the Python builtin sorted on str values. -/
def strLe (a b : String) : Bool := go a.data b.data
where
  go : List Char → List Char → Bool
  | [], _ => true
  | _ :: _, [] => false
  | a :: as, b :: bs => if a < b then true else if b < a then false else go as bs

/-- Python str.endswith; it is also the set of names matched by the glob
pattern "*" ++ ext for a metacharacter-free extension ext, as used at
source line 177 (pathlib glob does not treat leading dots specially). -/
def endswith (s suffix : String) : Bool := suffix.data.isSuffixOf s.data

/-- Python str.strip: remove leading and trailing whitespace
(source lines 342 and 343 apply .strip() to the combined build output). -/
def pyStrip (s : String) : String :=
  ⟨((s.data.dropWhile Char.isWhitespace).reverse.dropWhile Char.isWhitespace).reverse⟩

/-- Structural helper for pyReplace: one pass over the character list with
fuel; the fuel is the length of the list, so it never runs out. -/
def replaceFuel (old new : List Char) : Nat → List Char → List Char
  | _, [] => []
  | 0, rest => rest
  | fuel + 1, c :: cs =>
    if old.isEmpty then c :: replaceFuel old new fuel cs
    else if old.isPrefixOf (c :: cs) then
      new ++ replaceFuel old new fuel (List.drop (old.length - 1) cs)
    else c :: replaceFuel old new fuel cs

/-- Python str.replace(old, new) for a nonempty pattern: replace every
non-overlapping occurrence left to right (source line 271 replaces the
placeholder in each cmake option string). -/
def pyReplace (s old new : String) : String :=
  ⟨replaceFuel old.data new.data s.data.length s.data⟩

/-- os.path.join for a simple relative component, the only shape the
source uses. -/
def pathJoin (a b : String) : String := a ++ "/" ++ b

/-- os.path.basename: the part after the final slash. -/
def basename (p : String) : String :=
  ⟨(p.data.reverse.takeWhile (· ≠ '/')).reverse⟩

/-- os.path.dirname: everything before the final slash (empty when the
path has no slash). -/
def dirname (p : String) : String :=
  ⟨((p.data.reverse.dropWhile (· ≠ '/')).reverse).dropLast⟩

/-- Python " ".join(cmd). -/
def joinSpace (l : List String) : String := String.intercalate " " l

/-- One entry of a directory as observed through pathlib glob plus the
is_file test. -/
structure Entry where
  name : String
  isFile : Bool
deriving Repr, DecidableEq

/-- One entry of a directory as observed through os.listdir plus the
os.path.isfile and os.access(..., X_OK) tests. -/
structure ExecEntry where
  name : String
  isFile : Bool
  isExecutable : Bool
deriving Repr, DecidableEq

/-- Outcome of one subprocess.run call: normal completion with exit code
and captured streams, a TimeoutExpired, or some other exception. -/
inductive ProcResult where
  | completed (returncode : Int) (stdout stderr : String)
  | timedOut
  | failed (msg : String)
deriving Repr, DecidableEq

/-- The typed error conditions the core raises, one constructor per raise
site of the source; the carried string is the datum interpolated into the
exception message at that site. -/
inductive ExecError where
  | toolNotFound (tool_id : String)
  | commandNotDefined (tool_id : String)
  | inputFileNotFound (input_file : String)
  | projectNotFound (project_path : String)
  | notADirectory (project_path : String)
  | projectFileNotFound (path : String)
  | missingParameter (tool_id : String)
  | configFileNotFound (path : String)
deriving Repr, DecidableEq

/-- The Python exception class raised at each site (sources lines 66, 70,
74, 459, 464, 469, 500, 504). -/
def ExecError.pyClass : ExecError → String
  | .toolNotFound _ => "ValueError"
  | .commandNotDefined _ => "ValueError"
  | .inputFileNotFound _ => "ValueError"
  | .projectNotFound _ => "ProjectNotFoundError"
  | .notADirectory _ => "ValueError"
  | .projectFileNotFound _ => "ProjectFileNotFoundError"
  | .missingParameter _ => "ValueError"
  | .configFileNotFound _ => "ProjectFileNotFoundError"

/-- The message string of each raise site. -/
def ExecError.message : ExecError → String
  | .toolNotFound t => "Tool not found: " ++ t
  | .commandNotDefined t => "Command not defined for tool: " ++ t
  | .inputFileNotFound f => "Input file not found: " ++ f
  | .projectNotFound p => "Project directory not found: " ++ p
  | .notADirectory p => "Not a directory: " ++ p
  | .projectFileNotFound p => "Project file not found: " ++ p
  | .missingParameter t => "Tool " ++ t ++ " requires config_file parameter"
  | .configFileNotFound p => "Config file not found: " ++ p

/-- One parameter spec of a tool entry of the declarative configuration
(a dict with keys flag and default in the YAML). -/
structure Param where
  flag : String
  default : Option String
deriving Repr, DecidableEq

/-- The compile block of the ldp tool entry; every key is optional since
the source reads each with .get and a fallback. -/
structure CompileCfg where
  cmake_options : Option (List String)
  make_options : Option (List String)
  default_log_library : Option String
  timeout : Option Int
deriving Repr, DecidableEq

/-- One tool entry of the declarative configuration. -/
structure ToolConfig where
  command : Option String
  parameters : List Param
  output_types : List String
  verbose_type : Option String
  compile : Option CompileCfg
deriving Repr, DecidableEq

/-- The loaded application configuration: the tool registry plus the
global settings the executor reads (config.verbose defaults to 3,
outputs_dir and projects_base_dir are directory paths). -/
structure Config where
  tools : List (String × ToolConfig)
  verbose : Int
  outputs_dir : String
  projects_base_dir : String
deriving Repr, DecidableEq

/-- Config.get_tool: look a tool up in the registry; a miss is None. -/
def Config.get_tool (cfg : Config) (tool_id : String) : Option ToolConfig :=
  (cfg.tools.find? (fun p => p.1 == tool_id)).map (·.2)

/-- Insertion step of the Python builtin sorted, specialised to strings. -/
def insertStr (a : String) : List String → List String
  | [] => [a]
  | b :: bs => if strLe a b then a :: b :: bs else b :: insertStr a bs

/-- The Python builtin sorted on lists of strings (stability is
irrelevant here: equal strings are identical). -/
def pySorted : List String → List String
  | [] => []
  | a :: as => insertStr a (pySorted as)

/-- ToolExecutor._find_output_files: for each declared extension glob the
directory non-recursively, keep regular files, concatenate across
extensions and sort the combined list (source lines 162 to 182). -/
def find_output_files (directory : String) (listing : List Entry)
    (extensions : List String) : List String :=
  pySorted (extensions.flatMap (fun ext =>
    (listing.filter (fun e => endswith e.name ext && e.isFile)).map
      (fun e => pathJoin directory e.name)))

/-- ToolExecutor._get_message (source lines 184 to 191). -/
def get_message (return_code : Int) (tool_id : String) : String :=
  if return_code == 0 then "Tool " ++ tool_id ++ " executed successfully"
  else if return_code < 0 then "Tool " ++ tool_id ++ " execution failed"
  else "Tool " ++ tool_id ++ " execution failed with code " ++ toString return_code

/-- The result dictionary of ToolExecutor.execute (source lines 123 to 133). -/
structure ExecuteResult where
  success : Bool
  tool : String
  command : String
  input_file : String
  output_files : List String
  stdout : String
  stderr : String
  return_code : Int
  message : String
deriving Repr, DecidableEq

/-- The environment ToolExecutor.execute observes: existence of the input
file, the listing of its directory after the run, the subprocess runner
(argv to outcome; the working directory is fixed to the input directory),
and the timestamp string used for the outputs subdirectory. -/
structure ExecuteEnv where
  input_file_exists : Bool
  listing : List Entry
  run : List String → ProcResult
  timestamp : String

/-- The argv built at source line 85 for the standalone path. -/
def executeCmd (command input_filename : String) (verbose : Int) : List String :=
  [command, "-p", input_filename, "-v", toString verbose]

/-- ToolExecutor.execute (source lines 33 to 160): standalone-file
execution. Input paths are taken as already absolute, so os.path.abspath
is the identity. -/
def execute (cfg : Config) (tool_id input_file : String) (verbose : Option Int)
    (env : ExecuteEnv) : Except ExecError ExecuteResult :=
  match cfg.get_tool tool_id with
  | none => .error (.toolNotFound tool_id)
  | some tool_config =>
  match tool_config.command with
  | none => .error (.commandNotDefined tool_id)
  | some command =>
  if command == "" then .error (.commandNotDefined tool_id)
  else if !env.input_file_exists then .error (.inputFileNotFound input_file)
  else
    let verbose := verbose.getD cfg.verbose
    let input_dir := dirname input_file
    let input_filename := basename input_file
    let cmd := executeCmd command input_filename verbose
    match env.run cmd with
    | .completed rc out err =>
      let output_files := find_output_files input_dir env.listing tool_config.output_types
      let success := rc == 0
      let output_subdir := pathJoin cfg.outputs_dir (tool_id ++ "_" ++ env.timestamp)
      let copied_files :=
        if success then output_files.map (fun f => pathJoin output_subdir (basename f)) else []
      .ok { success, tool := tool_id, command, input_file,
            output_files := if success then copied_files else [],
            stdout := out, stderr := err, return_code := rc,
            message := get_message rc tool_id }
    | .timedOut =>
      .ok { success := false, tool := tool_id, command, input_file,
            output_files := [], stdout := "",
            stderr := "Execution timeout (5 minutes)", return_code := -1,
            message := "Tool execution timeout: " ++ tool_id }
    | .failed msg =>
      .ok { success := false, tool := tool_id, command, input_file,
            output_files := [], stdout := "", stderr := msg, return_code := -1,
            message := "Execution error: " ++ msg }

/-- The result dictionary of ToolExecutor.compile_project (source lines
340 to 350 and the three exception handlers). -/
structure CompileResult where
  compile_success : Bool
  compile_stdout : String
  compile_stderr : String
  compile_return_code : Int
  executable_files : List String
  cmake_dir : String
  build_dir : String
  cmake_command : String
  make_command : String
deriving Repr, DecidableEq

/-- Environment of the build orchestrator: the file-system tests it
performs, the os.walk sequence over the project tree (pairs of root and
contained file names, in walk order), the two subprocess runners, and the
os.listdir view used for executable discovery. -/
structure CompileEnv where
  path_exists : String → Bool
  is_dir : String → Bool
  walk : List (String × List String)
  run_cmake : List String → ProcResult
  run_make : List String → ProcResult
  listdir : String → List ExecEntry

/-- ToolExecutor._find_cmakelists_dir (source lines 193 to 228): try the
conventional output directory names first (each checked for the
descriptor in itself, then in its parent), then fall back to the first
os.walk root containing CMakeLists.txt; None when absent everywhere
(the source raises FileNotFoundError there). -/
def find_cmakelists_dir (env : CompileEnv) (project_path : String) : Option String :=
  let common_output_dirs := ["6-output", "6-Output", "Output", "output", "build-output"]
  match common_output_dirs.findSome? (fun dir_name =>
    let candidate := pathJoin project_path dir_name
    if env.path_exists candidate && env.is_dir candidate then
      if env.path_exists (pathJoin candidate "CMakeLists.txt") then some candidate
      else
        let parent_dir := dirname candidate
        if env.path_exists (pathJoin parent_dir "CMakeLists.txt") then some parent_dir
        else none
    else none) with
  | some d => some d
  | none => (env.walk.find? (fun rf => rf.2.contains "CMakeLists.txt")).map (·.1)

/-- The record returned by both timeout handlers of compile_project
(source lines 352 to 364). -/
def timeoutCompileResult : CompileResult :=
  { compile_success := false, compile_stdout := "",
    compile_stderr := "Compilation timeout", compile_return_code := -1,
    executable_files := [], cmake_dir := "", build_dir := "",
    cmake_command := "", make_command := "" }

/-- The record returned when the build descriptor is absent (source lines
365 to 377); the stderr is str(e) of the FileNotFoundError raised at
source line 228. -/
def notFoundCompileResult (project_path : String) : CompileResult :=
  { compile_success := false, compile_stdout := "",
    compile_stderr := "CMakeLists.txt not found in project: " ++ project_path,
    compile_return_code := -1, executable_files := [], cmake_dir := "",
    build_dir := "", cmake_command := "", make_command := "" }

/-- The record returned by the generic exception handler of
compile_project (source lines 378 to 390). -/
def unexpectedCompileResult (msg : String) : CompileResult :=
  { compile_success := false, compile_stdout := "",
    compile_stderr := "Unexpected error: " ++ msg, compile_return_code := -1,
    executable_files := [], cmake_dir := "", build_dir := "",
    cmake_command := "", make_command := "" }

/-- ToolExecutor.compile_project (source lines 230 to 390): locate the
CMakeLists.txt directory, run cmake then make (make only when cmake
exited 0, with a synthetic exit code -1 make result otherwise), discover
executables, and combine the outputs; every failure is caught and folded
into the returned record. The timeout argument is carried for fidelity
but timing is decided by the environment runners. -/
def compile_project (cfg : Config) (env : CompileEnv) (project_path : String)
    (log_library : String) (cmake_options : Option (List String))
    (timeout : Int) : CompileResult :=
  match find_cmakelists_dir env project_path with
  | none => notFoundCompileResult project_path
  | some cmake_dir =>
    let build_dir := pathJoin cmake_dir "build"
    let tool_config := cfg.get_tool "ldp"
    let compile_config := tool_config.bind (·.compile)
    let default_cmake_options := (compile_config.bind (·.cmake_options)).getD []
    let default_make_options := (compile_config.bind (·.make_options)).getD ["-j"]
    let chosen_cmake_options :=
      match cmake_options with
      | none => default_cmake_options
      | some opts => if opts.isEmpty then default_cmake_options else opts
    let processed_cmake_options :=
      chosen_cmake_options.map (fun opt => pyReplace opt "${log_library}" log_library)
    let cmake_cmd := ["cmake", "..", "-DLDP_LOG_USE=" ++ log_library] ++ processed_cmake_options
    let make_cmd := ["make"] ++ default_make_options
    match env.run_cmake cmake_cmd with
    | .timedOut => timeoutCompileResult
    | .failed msg => unexpectedCompileResult msg
    | .completed cmake_rc cmake_out cmake_err =>
      let cmake_success := cmake_rc == 0
      let make_outcome :=
        if cmake_success then env.run_make make_cmd
        else .completed (-1) "" "CMake failed, make not executed"
      match make_outcome with
      | .timedOut => timeoutCompileResult
      | .failed msg => unexpectedCompileResult msg
      | .completed make_rc make_out make_err =>
        let bin_dir := pathJoin build_dir "bin"
        let scanned := if env.path_exists bin_dir then env.listdir bin_dir else env.listdir build_dir
        let executable_files :=
          (scanned.filter (fun e => e.isFile && e.isExecutable)).map (·.name)
        let compile_success := cmake_success && (make_rc == 0)
        let combined_stdout :=
          "=== CMake Output ===\n" ++ cmake_out ++ "\n" ++
          "=== Make Output ===\n" ++ make_out ++ "\n"
        let combined_stderr :=
          "=== CMake Errors ===\n" ++ cmake_err ++ "\n" ++
          "=== Make Errors ===\n" ++ make_err ++ "\n"
        { compile_success, compile_stdout := pyStrip combined_stdout,
          compile_stderr := pyStrip combined_stderr,
          compile_return_code := make_rc, executable_files, cmake_dir,
          build_dir, cmake_command := joinSpace cmake_cmd,
          make_command := joinSpace make_cmd }

/-- The seven compile_* keys merged into the project result when a build
was attempted (source lines 593 to 603; cmake_command and make_command
are not merged). -/
structure MergedCompile where
  compile_success : Bool
  compile_stdout : String
  compile_stderr : String
  compile_return_code : Int
  executable_files : List String
  cmake_dir : String
  build_dir : String
deriving Repr, DecidableEq

/-- The merge step of source lines 593 to 603. -/
def mergeCompile (c : CompileResult) : MergedCompile :=
  { compile_success := c.compile_success, compile_stdout := c.compile_stdout,
    compile_stderr := c.compile_stderr,
    compile_return_code := c.compile_return_code,
    executable_files := c.executable_files, cmake_dir := c.cmake_dir,
    build_dir := c.build_dir }

/-- The result dictionary of ToolExecutor.execute_in_project (source
lines 580 to 605 and the two exception handlers); the optional build
fields are present exactly when the merge of lines 593 to 603 ran. -/
structure ProjectResult where
  success : Bool
  tool : String
  project_name : String
  project_path : String
  project_file : String
  generated_files : List String
  stdout : String
  stderr : String
  return_code : Int
  message : String
  compileResult : Option MergedCompile
deriving Repr, DecidableEq

/-- Environment of the project execution path: file-system tests, the
project directory listing used for output collection, and the tool
subprocess runner (working directory fixed to the project directory). -/
structure ProjectEnv where
  path_exists : String → Bool
  is_dir : String → Bool
  listing : List Entry
  run : List String → ProcResult

/-- Checker resolution of source lines 477 to 488: when the contract
declares a parameter with flag -k and the caller supplied None, take the
spec default (falling back to ecoa-exvt); otherwise leave the caller
value unchanged. -/
def resolve_checker (tool_config : ToolConfig) (checker : Option String) :
    Option String :=
  match tool_config.parameters.find? (fun p => p.flag == "-k") with
  | some checker_param =>
    match checker with
    | none => some (checker_param.default.getD "ecoa-exvt")
    | some c => some c
  | none => checker

/-- The argv assembly of source lines 509 to 527: base command and -p,
then -c when config_file is truthy, then -k when the resolved checker is
truthy, then the verbosity flag according to verbose_type. -/
def buildCmd (command project_file : String) (config_file checker : Option String)
    (verbose_type : String) (verbose : Int) : List String :=
  let cmd := [command, "-p", project_file]
  let cmd := if pyTruthy config_file then cmd ++ ["-c", pyGet config_file] else cmd
  let cmd := if pyTruthy checker then cmd ++ ["-k", pyGet checker] else cmd
  if verbose_type == "boolean" then cmd ++ ["-v"] else cmd ++ ["-v", toString verbose]

/-- ToolExecutor.execute_in_project (source lines 392 to 634): validate
the tool, project directory and project file; resolve checker and config
file against the contract; build and run the command; collect outputs on
success; optionally chain the build for the ldp tool and merge its
fields. -/
def execute_in_project (cfg : Config) (tool_id project_name project_file : String)
    (verbose : Option Int) (checker config_file : Option String)
    (compile : Bool) (log_library : Option String)
    (cmake_options : Option (List String)) (env : ProjectEnv)
    (cenv : CompileEnv) : Except ExecError ProjectResult :=
  match cfg.get_tool tool_id with
  | none => .error (.toolNotFound tool_id)
  | some tool_config =>
  match tool_config.command with
  | none => .error (.commandNotDefined tool_id)
  | some command =>
  if command == "" then .error (.commandNotDefined tool_id)
  else
    let project_path := pathJoin cfg.projects_base_dir project_name
    if !env.path_exists project_path then .error (.projectNotFound project_path)
    else if !env.is_dir project_path then .error (.notADirectory project_path)
    else if !env.path_exists (pathJoin project_path project_file) then
      .error (.projectFileNotFound (pathJoin project_path project_file))
    else
      let verbose := verbose.getD cfg.verbose
      let checker := resolve_checker tool_config checker
      let config_check : Except ExecError Unit :=
        match tool_config.parameters.find? (fun p => p.flag == "-c") with
        | some _ =>
          if !pyTruthy config_file then .error (.missingParameter tool_id)
          else if !env.path_exists (pathJoin project_path (pyGet config_file)) then
            .error (.configFileNotFound (pathJoin project_path (pyGet config_file)))
          else .ok ()
        | none => .ok ()
      match config_check with
      | .error e => .error e
      | .ok _ =>
        let verbose_type := tool_config.verbose_type.getD "boolean"
        let cmd := buildCmd command project_file config_file checker verbose_type verbose
        match env.run cmd with
        | .completed rc out err =>
          let success := rc == 0
          let generated_files :=
            if success then
              find_output_files project_path env.listing tool_config.output_types
            else []
          let compile_result : Option CompileResult :=
            if success && compile && (tool_id == "ldp") then
              let ldp_config := cfg.get_tool "ldp"
              let compile_config := ldp_config.bind (·.compile)
              let log_library :=
                log_library.getD ((compile_config.bind (·.default_log_library)).getD "log4cplus")
              let cmake_options :=
                some (cmake_options.getD ((compile_config.bind (·.cmake_options)).getD []))
              let timeout := (compile_config.bind (·.timeout)).getD 600
              some (compile_project cfg cenv project_path log_library cmake_options timeout)
            else none
          .ok { success, tool := tool_id, project_name, project_path, project_file,
                generated_files, stdout := out, stderr := err, return_code := rc,
                message := get_message rc tool_id,
                compileResult := compile_result.map mergeCompile }
        | .timedOut =>
          .ok { success := false, tool := tool_id, project_name, project_path,
                project_file, generated_files := [], stdout := "",
                stderr := "Execution timeout (5 minutes)", return_code := -1,
                message := "Tool execution timeout: " ++ tool_id,
                compileResult := none }
        | .failed msg =>
          .ok { success := false, tool := tool_id, project_name, project_path,
                project_file, generated_files := [], stdout := "", stderr := msg,
                return_code := -1, message := "Execution error: " ++ msg,
                compileResult := none }

/-- Spec-side definition of the fixed-order argument vector of section
4.2 step 4 of the specification: executable, -p with the primary file,
conditionally -c, conditionally -k, then the verbosity flag, bare for a
boolean verbose kind and valued otherwise. -/
def spec_argv (executable primary : String) (config checker : Option String)
    (verbose_kind : String) (verbose : Int) : List String :=
  [executable, "-p", primary]
    ++ (match config with | some c => ["-c", c] | none => [])
    ++ (match checker with | some k => ["-k", k] | none => [])
    ++ (if verbose_kind == "boolean" then ["-v"] else ["-v", toString verbose])

/-- Normalise an optional caller value to presence: a supplied value is
present exactly when it is truthy. -/
def presentVal (o : Option String) : Option String :=
  if pyTruthy o then o else none

/-- Decidable equality of Except values, used to evaluate concrete runs
of the embedded entry points inside witnesses. -/
instance {e a : Type} [DecidableEq e] [DecidableEq a] : DecidableEq (Except e a)
  | .ok x, .ok y =>
    if h : x = y then .isTrue (by rw [h])
    else .isFalse (by intro hc; cases hc; exact h rfl)
  | .error x, .error y =>
    if h : x = y then .isTrue (by rw [h])
    else .isFalse (by intro hc; cases hc; exact h rfl)
  | .ok _, .error _ => .isFalse (by intro hc; cases hc)
  | .error _, .ok _ => .isFalse (by intro hc; cases hc)

/-- A build-stage outcome counts as success exactly when the process
completed with exit code 0 (section 4.5 of the specification). -/
def isSuccessOutcome : ProcResult → Bool
  | .completed rc _ _ => rc == 0
  | _ => false

/-! Concrete configurations, environments and expected results used by
the witnesses. -/

/-- Tool entry used by the C1 witness. -/
def C1tool : ToolConfig :=
  { command := some "tb", parameters := [], output_types := [".h"],
    verbose_type := none, compile := none }

/-- Configuration used by the C1 witness. -/
def C1cfg : Config :=
  { tools := [("t", C1tool)], verbose := 3, outputs_dir := "/o",
    projects_base_dir := "/p" }

/-- Standalone environment of the C1 witness: the tool exits 1. -/
def C1env : ExecuteEnv :=
  { input_file_exists := true, listing := [⟨"x.h", true⟩],
    run := fun _ => .completed 1 "" "", timestamp := "ts" }

/-- Project environment of the C1 witness: the tool exits 2. -/
def C1penv : ProjectEnv :=
  { path_exists := fun _ => true, is_dir := fun _ => true, listing := [],
    run := fun _ => .completed 2 "" "" }

/-- A build environment that never finds anything, for runs that never
reach the build stage. -/
def trivialCompileEnv : CompileEnv :=
  { path_exists := fun _ => false, is_dir := fun _ => false, walk := [],
    run_cmake := fun _ => .timedOut, run_make := fun _ => .timedOut,
    listdir := fun _ => [] }

/-- The standalone result of the C1 witness run. -/
def C1res : ExecuteResult :=
  { success := false, tool := "t", command := "tb", input_file := "/d/in.xml",
    output_files := [], stdout := "", stderr := "", return_code := 1,
    message := "Tool t execution failed with code 1" }

/-- The project result of the C1 witness run. -/
def C1pres : ProjectResult :=
  { success := false, tool := "t", project_name := "pn",
    project_path := "/p/pn", project_file := "pf.xml", generated_files := [],
    stdout := "", stderr := "", return_code := 2,
    message := "Tool t execution failed with code 2", compileResult := none }

/-- Tool entry of the exvt scenario of C2: command exvt-bin, output
extensions [".h"], valued verbose kind. -/
def exvtTool : ToolConfig :=
  { command := some "exvt-bin", parameters := [], output_types := [".h"],
    verbose_type := some "valued", compile := none }

/-- Configuration of the exvt scenario of C2, with registry-wide default
verbosity 3. -/
def exvtConfig : Config :=
  { tools := [("exvt", exvtTool)], verbose := 3, outputs_dir := "/outputs",
    projects_base_dir := "/projects" }

/-- Tool entry of the C3 witness: declares a config-file parameter. -/
def C3tool : ToolConfig :=
  { command := some "asctg-bin", parameters := [⟨"-c", none⟩],
    output_types := [], verbose_type := none, compile := none }

/-- Configuration of the C3 witness. -/
def C3cfg : Config :=
  { tools := [("asctg", C3tool)], verbose := 3, outputs_dir := "/o3",
    projects_base_dir := "/p3" }

/-- Project environment of the C3 witness: everything exists except the
file missing.cfg inside the project directory. -/
def C3env : ProjectEnv :=
  { path_exists := fun s => !(s == "/p3/pn/missing.cfg"),
    is_dir := fun _ => true, listing := [],
    run := fun _ => .completed 0 "" "" }

/-- Tool entry of the C4 witness, declaring output extension .h. -/
def C4tool : ToolConfig :=
  { command := some "tb4", parameters := [], output_types := [".h"],
    verbose_type := none, compile := none }

/-- Configuration of the C4 witness. -/
def C4cfg : Config :=
  { tools := [("t", C4tool)], verbose := 3, outputs_dir := "/o4",
    projects_base_dir := "/p4" }

/-- Project environment of the C4 witness: a successful run with a mixed
directory listing (two matching regular files, one non-matching file,
one matching non-regular entry), delivered unsorted. -/
def C4env : ProjectEnv :=
  { path_exists := fun _ => true, is_dir := fun _ => true,
    listing := [⟨"b.h", true⟩, ⟨"a.h", true⟩, ⟨"c.txt", true⟩, ⟨"d.h", false⟩],
    run := fun _ => .completed 0 "" "" }

/-- The project result of the C4 witness run. -/
def C4res : ProjectResult :=
  { success := true, tool := "t", project_name := "pn",
    project_path := "/p4/pn", project_file := "pf.xml",
    generated_files := ["/p4/pn/a.h", "/p4/pn/b.h"], stdout := "",
    stderr := "", return_code := 0,
    message := "Tool t executed successfully", compileResult := none }

/-- Tool entry of the C5 run, declaring output extension .h. -/
def C5tool : ToolConfig :=
  { command := some "tb5", parameters := [], output_types := [".h"],
    verbose_type := none, compile := none }

/-- Configuration of the C5 run. -/
def C5cfg : Config :=
  { tools := [("t", C5tool)], verbose := 3, outputs_dir := "/o5",
    projects_base_dir := "/p5" }

/-- Standalone environment of the C5 run: the input file in.h itself is
the only directory entry, and the tool succeeds. -/
def C5env : ExecuteEnv :=
  { input_file_exists := true, listing := [⟨"in.h", true⟩],
    run := fun _ => .completed 0 "" "", timestamp := "ts" }

/-- The result of the C5 run: the input file is collected and copied. -/
def C5res : ExecuteResult :=
  { success := true, tool := "t", command := "tb5", input_file := "/d/in.h",
    output_files := ["/o5/t_ts/in.h"], stdout := "", stderr := "",
    return_code := 0, message := "Tool t executed successfully" }

/-- File-system of the C6 and C7 build witnesses: the conventional
6-output directory under /pp exists, is a directory, and contains the
build descriptor. -/
def foundExists : String → Bool :=
  fun s => (s == "/pp/6-output") || (s == "/pp/6-output/CMakeLists.txt")

/-- Build environment of the C6 witness where cmake times out. -/
def C6cenvA : CompileEnv :=
  { path_exists := foundExists, is_dir := fun _ => true, walk := [],
    run_cmake := fun _ => .timedOut, run_make := fun _ => .timedOut,
    listdir := fun _ => [] }

/-- Build environment of the C6 witness where cmake succeeds and make
times out. -/
def C6cenvB : CompileEnv :=
  { path_exists := foundExists, is_dir := fun _ => true, walk := [],
    run_cmake := fun _ => .completed 0 "co" "ce",
    run_make := fun _ => .timedOut, listdir := fun _ => [] }

/-- Tool entry of the C6 merged-run witness. -/
def C6tool : ToolConfig :=
  { command := some "tb6", parameters := [], output_types := [],
    verbose_type := none, compile := none }

/-- Configuration of the C6 merged-run witness. -/
def C6cfg : Config :=
  { tools := [("t", C6tool)], verbose := 3, outputs_dir := "/o6",
    projects_base_dir := "/p6" }

/-- Project environment of the C6 merged-run witness: the tool exits 0. -/
def C6penv : ProjectEnv :=
  { path_exists := fun _ => true, is_dir := fun _ => true, listing := [],
    run := fun _ => .completed 0 "" "" }

/-- The project result of the C6 merged-run witness. -/
def C6res : ProjectResult :=
  { success := true, tool := "t", project_name := "pn",
    project_path := "/p6/pn", project_file := "pf.xml",
    generated_files := [], stdout := "", stderr := "", return_code := 0,
    message := "Tool t executed successfully", compileResult := none }

/-- Build environment of the C7 witness where cmake fails with exit 1. -/
def C7cenvFail : CompileEnv :=
  { path_exists := foundExists, is_dir := fun _ => true, walk := [],
    run_cmake := fun _ => .completed 1 "co" "ce",
    run_make := fun _ => .timedOut, listdir := fun _ => [] }

/-- Build environment of the C7 witness where both stages succeed. -/
def C7cenvOK : CompileEnv :=
  { path_exists := foundExists, is_dir := fun _ => true, walk := [],
    run_cmake := fun _ => .completed 0 "a" "b",
    run_make := fun _ => .completed 0 "c" "d", listdir := fun _ => [] }

/-- Tool entry of the C8 witness. -/
def C8tool : ToolConfig :=
  { command := some "tb8", parameters := [], output_types := [],
    verbose_type := none, compile := none }

/-- Configuration of the C8 witness. -/
def C8cfg : Config :=
  { tools := [("t", C8tool)], verbose := 3, outputs_dir := "/o8",
    projects_base_dir := "/p8" }

/-- Standalone environment of the C8 witness: the run times out. -/
def C8env : ExecuteEnv :=
  { input_file_exists := true, listing := [],
    run := fun _ => .timedOut, timestamp := "ts" }

/-- Project environment of the C8 witness: the run times out. -/
def C8penv : ProjectEnv :=
  { path_exists := fun _ => true, is_dir := fun _ => true, listing := [],
    run := fun _ => .timedOut }

/-- Tool entry of the C9 witness: the build-capable tool ldp. -/
def C9tool : ToolConfig :=
  { command := some "ldp-bin", parameters := [], output_types := [],
    verbose_type := none, compile := none }

/-- Configuration of the C9 witness. -/
def C9cfg : Config :=
  { tools := [("ldp", C9tool)], verbose := 3, outputs_dir := "/o9",
    projects_base_dir := "/p9" }

/-- Project environment of the C9 witness: the tool run fails (exit 1). -/
def C9penv : ProjectEnv :=
  { path_exists := fun _ => true, is_dir := fun _ => true, listing := [],
    run := fun _ => .completed 1 "" "" }

/-- The project result of the C9 witness run: no build fields present. -/
def C9res : ProjectResult :=
  { success := false, tool := "ldp", project_name := "pn",
    project_path := "/p9/pn", project_file := "pf.xml",
    generated_files := [], stdout := "", stderr := "", return_code := 1,
    message := "Tool ldp execution failed with code 1",
    compileResult := none }

/-- A second, observably different build environment for the C9 witness
independence check. -/
def C9cenvAlt : CompileEnv :=
  { path_exists := fun _ => true, is_dir := fun _ => true,
    walk := [("/p9/pn", ["CMakeLists.txt"])],
    run_cmake := fun _ => .completed 0 "x" "y",
    run_make := fun _ => .completed 0 "z" "w",
    listdir := fun _ => [⟨"app", true, true⟩] }

/-- Tool entry of the C10 witness: no declared parameters at all. -/
def C10tool : ToolConfig :=
  { command := some "xb", parameters := [], output_types := [],
    verbose_type := none, compile := none }

/-- Configuration of the C10 witness. -/
def C10cfg : Config :=
  { tools := [("t", C10tool)], verbose := 3, outputs_dir := "/oA",
    projects_base_dir := "/pA" }

/-- Project environment of the C10 witness: everything exists except the
caller-supplied config file nope.cfg; the tool exits 7. -/
def C10env : ProjectEnv :=
  { path_exists := fun s => !(s == "/pA/pn/nope.cfg"),
    is_dir := fun _ => true, listing := [],
    run := fun _ => .completed 7 "" "" }

/-! Order and sorting lemmas for the output collector. -/

theorem strLe_go_total : ∀ as bs : List Char,
    strLe.go as bs = true ∨ strLe.go bs as = true
  | [], _ => Or.inl rfl
  | _ :: _, [] => Or.inr rfl
  | a :: as, b :: bs => by
    rcases lt_trichotomy a b with h | rfl | h
    · exact Or.inl (by simp [strLe.go, h])
    · rcases strLe_go_total as bs with ih | ih
      · exact Or.inl (by simp [strLe.go, ih])
      · exact Or.inr (by simp [strLe.go, ih])
    · exact Or.inr (by simp [strLe.go, h])

theorem strLe_go_trans : ∀ as bs cs : List Char,
    strLe.go as bs = true → strLe.go bs cs = true → strLe.go as cs = true
  | [], _, _ => fun _ _ => rfl
  | _ :: _, [], _ => fun h _ => by simp [strLe.go] at h
  | _ :: _, _ :: _, [] => fun _ h => by simp [strLe.go] at h
  | a :: as, b :: bs, c :: cs => fun h1 h2 => by
    rcases lt_trichotomy a b with hab | rfl | hab
    · rcases lt_trichotomy b c with hbc | rfl | hbc
      · simp [strLe.go, lt_trans hab hbc]
      · simp [strLe.go, hab]
      · simp [strLe.go, asymm hbc, hbc] at h2
    · have h1' : strLe.go as bs = true := by simpa [strLe.go] using h1
      rcases lt_trichotomy a c with hac | rfl | hac
      · simp [strLe.go, hac]
      · have h2' : strLe.go bs cs = true := by simpa [strLe.go] using h2
        simpa [strLe.go] using strLe_go_trans as bs cs h1' h2'
      · simp [strLe.go, asymm hac, hac] at h2
    · simp [strLe.go, asymm hab, hab] at h1

theorem strLe_total (a b : String) : strLe a b = true ∨ strLe b a = true :=
  strLe_go_total a.data b.data

theorem strLe_trans {a b c : String} (h1 : strLe a b = true)
    (h2 : strLe b c = true) : strLe a c = true :=
  strLe_go_trans a.data b.data c.data h1 h2

theorem mem_insertStr {x a : String} : ∀ {l : List String},
    x ∈ insertStr a l ↔ x = a ∨ x ∈ l
  | [] => by simp [insertStr]
  | b :: bs => by
    simp only [insertStr]
    split
    · simp [List.mem_cons]
    · simp only [List.mem_cons, mem_insertStr (l := bs)]
      tauto

theorem mem_pySorted {x : String} : ∀ {l : List String},
    x ∈ pySorted l ↔ x ∈ l
  | [] => Iff.rfl
  | a :: as => by
    simp [pySorted, mem_insertStr, mem_pySorted (l := as), List.mem_cons]

theorem pairwise_insertStr {a : String} : ∀ {l : List String},
    l.Pairwise (fun x y => strLe x y = true) →
    (insertStr a l).Pairwise (fun x y => strLe x y = true)
  | [], _ => by simp [insertStr]
  | b :: bs, h => by
    rcases List.pairwise_cons.mp h with ⟨hb, hbs⟩
    by_cases hab : strLe a b = true
    · simp only [insertStr, if_pos hab]
      refine List.pairwise_cons.mpr ⟨?_, h⟩
      intro x hx
      rcases List.mem_cons.mp hx with rfl | hx
      · exact hab
      · exact strLe_trans hab (hb x hx)
    · have hba : strLe b a = true := (strLe_total a b).resolve_left hab
      simp only [insertStr, if_neg hab]
      refine List.pairwise_cons.mpr ⟨?_, pairwise_insertStr hbs⟩
      intro x hx
      rcases mem_insertStr.mp hx with rfl | hx
      · exact hba
      · exact hb x hx

theorem pairwise_pySorted : ∀ l : List String,
    (pySorted l).Pairwise (fun x y => strLe x y = true)
  | [] => List.Pairwise.nil
  | _ :: as => pairwise_insertStr (pairwise_pySorted as)

theorem mem_find_output_files (dir : String) (listing : List Entry)
    (exts : List String) (p : String) :
    p ∈ find_output_files dir listing exts ↔
      ∃ e ∈ listing, e.isFile = true ∧
        (∃ ext ∈ exts, endswith e.name ext = true) ∧ p = pathJoin dir e.name := by
  simp only [find_output_files, mem_pySorted, List.mem_flatMap, List.mem_map,
    List.mem_filter, Bool.and_eq_true]
  constructor
  · rintro ⟨ext, hext, e, ⟨he, hend, hfile⟩, rfl⟩
    exact ⟨e, he, hfile, ⟨ext, hext, hend⟩, rfl⟩
  · rintro ⟨e, he, hfile, ⟨ext, hext, hend⟩, rfl⟩
    exact ⟨ext, hext, e, ⟨he, hend, hfile⟩, rfl⟩

/-! Claim theorems. -/

/-- C1: for every result returned by either execution entry point, if the
success flag is false then the output_files (standalone path) or
generated_files (project path) list is empty. -/
theorem claim_C1_no_outputs_on_failure :
    (∀ (cfg : Config) (tool_id input_file : String) (verbose : Option Int)
        (env : ExecuteEnv) (r : ExecuteResult),
      execute cfg tool_id input_file verbose env = .ok r →
      r.success = false → r.output_files = [])
    ∧ (∀ (cfg : Config) (tool_id project_name project_file : String)
        (verbose : Option Int) (checker config_file : Option String)
        (compile : Bool) (log_library : Option String)
        (cmake_options : Option (List String)) (env : ProjectEnv)
        (cenv : CompileEnv) (r : ProjectResult),
      execute_in_project cfg tool_id project_name project_file verbose checker
        config_file compile log_library cmake_options env cenv = .ok r →
      r.success = false → r.generated_files = []) := by
  constructor
  · intro cfg tool_id input_file verbose env r h hs
    simp only [execute] at h
    split at h
    · exact absurd h (by simp)
    split at h
    · exact absurd h (by simp)
    split at h
    · exact absurd h (by simp)
    split at h
    · exact absurd h (by simp)
    split at h
    · injection h with h
      subst h
      simp_all
    · injection h with h
      subst h
      simp_all
    · injection h with h
      subst h
      rfl
  · intro cfg tool_id project_name project_file verbose checker config_file
      compile log_library cmake_options env cenv r h hs
    simp only [execute_in_project] at h
    split at h
    · exact absurd h (by simp)
    split at h
    · exact absurd h (by simp)
    split at h
    · exact absurd h (by simp)
    split at h
    · exact absurd h (by simp)
    split at h
    · exact absurd h (by simp)
    split at h
    · exact absurd h (by simp)
    split at h
    · exact absurd h (by simp)
    split at h
    · injection h with h
      subst h
      simp_all
    · injection h with h
      subst h
      rfl
    · injection h with h
      subst h
      rfl

/-- Witness for C1: a concrete failing standalone run and a concrete
failing project run, with the claim theorem applied to each. -/
theorem claim_C1_witness :
    (execute C1cfg "t" "/d/in.xml" none C1env = .ok C1res ∧
      C1res.success = false ∧ C1res.output_files = [])
    ∧ (execute_in_project C1cfg "t" "pn" "pf.xml" none none none false none
        none C1penv trivialCompileEnv = .ok C1pres ∧
      C1pres.success = false ∧ C1pres.generated_files = []) :=
  ⟨⟨by decide, by decide, claim_C1_no_outputs_on_failure.1 C1cfg "t" "/d/in.xml"
      none C1env C1res (by decide) (by decide)⟩,
    ⟨by decide, by decide, claim_C1_no_outputs_on_failure.2 C1cfg "t" "pn"
      "pf.xml" none none none false none none C1penv trivialCompileEnv C1pres
      (by decide) (by decide)⟩⟩

/-- The standalone path consults its runner only at the argv of source
line 85: replacing the runner by one that agrees there leaves the result
unchanged. -/
theorem execute_points_run (cfg : Config) (tool_id input_file : String)
    (verbose : Option Int) (ife : Bool) (listing : List Entry)
    (f g : List String → ProcResult) (ts : String)
    (h : ∀ tc c, cfg.get_tool tool_id = some tc → tc.command = some c →
      f (executeCmd c (basename input_file) (verbose.getD cfg.verbose)) =
        g (executeCmd c (basename input_file) (verbose.getD cfg.verbose))) :
    execute cfg tool_id input_file verbose ⟨ife, listing, f, ts⟩ =
      execute cfg tool_id input_file verbose ⟨ife, listing, g, ts⟩ := by
  cases htool : cfg.get_tool tool_id with
  | none => simp only [execute, htool]
  | some tc =>
    cases hcmd : tc.command with
    | none => simp only [execute, htool, hcmd]
    | some c =>
      simp only [execute, htool, hcmd, h tc c htool hcmd]

/-- C2: the final argument vector is assembled in fixed order (executable,
-p primary file, conditional -c, conditional -k, then the verbosity flag,
bare for a boolean verbose kind and valued otherwise), shown as equality
of the source-side assembly with the spec-side fixed-order definition;
and on the standalone path with tool exvt (command exvt-bin, valued kind,
default verbosity 3) and input a.xml, the argv is exactly
["exvt-bin", "-p", "a.xml", "-v", "3"]: the runner is only consulted at
that exact vector. -/
theorem claim_C2_argv_fixed_order :
    (∀ (command project_file : String) (config_file checker : Option String)
        (verbose_type : String) (verbose : Int),
      buildCmd command project_file config_file checker verbose_type verbose =
        spec_argv command project_file (presentVal config_file)
          (presentVal checker) verbose_type verbose)
    ∧ executeCmd "exvt-bin" "a.xml" 3 = ["exvt-bin", "-p", "a.xml", "-v", "3"]
    ∧ (∀ (f : List String → ProcResult) (listing : List Entry) (ts : String),
        execute exvtConfig "exvt" "a.xml" none ⟨true, listing, f, ts⟩ =
          execute exvtConfig "exvt" "a.xml" none
            ⟨true, listing, fun _ => f ["exvt-bin", "-p", "a.xml", "-v", "3"], ts⟩) := by
  refine ⟨?_, rfl, ?_⟩
  · intro command project_file config_file checker verbose_type verbose
    rcases config_file with _ | c <;> rcases checker with _ | k <;>
      simp only [buildCmd, spec_argv, presentVal, pyTruthy, pyGet, Option.getD] <;>
      split_ifs <;> simp_all [List.append_assoc]
  · intro f listing ts
    refine execute_points_run exvtConfig "exvt" "a.xml" none true listing f
      (fun _ => f ["exvt-bin", "-p", "a.xml", "-v", "3"]) ts ?_
    intro tc c htool hcmd
    have h0 : exvtConfig.get_tool "exvt" = some exvtTool := by decide
    rw [h0] at htool
    injection htool with htc
    subst htc
    have h1 : (some "exvt-bin" : Option String) = some c := by
      rw [← hcmd]; decide
    injection h1 with hc
    subst hc
    exact congrArg f (by decide)

/-- C3: when the contract declares a config-file parameter (flag -c),
omitting the config_file value fails with the MissingParameter condition
naming the tool, and supplying a value whose file does not exist inside
the project directory fails with the ConfigFileNotFound condition; in
both cases the result is an error for every runner, so no process is
spawned. -/
theorem claim_C3_config_resolution_failures :
    ∀ (cfg : Config) (tool_id project_name project_file : String)
      (verbose : Option Int) (checker config_file : Option String)
      (compile : Bool) (log_library : Option String)
      (cmake_options : Option (List String)) (env : ProjectEnv)
      (cenv : CompileEnv) (tc : ToolConfig) (c : String) (p : Param),
      cfg.get_tool tool_id = some tc →
      tc.command = some c → (c == "") = false →
      tc.parameters.find? (fun q => q.flag == "-c") = some p →
      env.path_exists (pathJoin cfg.projects_base_dir project_name) = true →
      env.is_dir (pathJoin cfg.projects_base_dir project_name) = true →
      env.path_exists
        (pathJoin (pathJoin cfg.projects_base_dir project_name) project_file) = true →
      (pyTruthy config_file = false →
        execute_in_project cfg tool_id project_name project_file verbose
          checker config_file compile log_library cmake_options env cenv =
          .error (.missingParameter tool_id))
      ∧ (∀ cf : String, config_file = some cf → (cf == "") = false →
          env.path_exists
            (pathJoin (pathJoin cfg.projects_base_dir project_name) cf) = false →
          execute_in_project cfg tool_id project_name project_file verbose
            checker config_file compile log_library cmake_options env cenv =
            .error (.configFileNotFound
              (pathJoin (pathJoin cfg.projects_base_dir project_name) cf))) := by
  intro cfg tool_id project_name project_file verbose checker config_file
    compile log_library cmake_options env cenv tc c p htool hcmd hcne hparam
    hpe hdir hpf
  constructor
  · intro hcf
    simp [execute_in_project, htool, hcmd, hcne, hparam, hpe, hdir, hpf, hcf]
  · intro cf hcfeq hcfne hnof
    subst hcfeq
    simp [execute_in_project, htool, hcmd, hcne, hparam, hpe, hdir, hpf,
      pyTruthy, pyGet, hcfne, hnof]

/-- Witness for C3: tool asctg declares a -c parameter; with config_file
omitted the call fails with MissingParameter, and with config_file
naming the absent file missing.cfg it fails with ConfigFileNotFound. -/
theorem claim_C3_witness :
    execute_in_project C3cfg "asctg" "pn" "pf.xml" none none none false none
      none C3env trivialCompileEnv = .error (.missingParameter "asctg")
    ∧ execute_in_project C3cfg "asctg" "pn" "pf.xml" none none
      (some "missing.cfg") false none none C3env trivialCompileEnv =
      .error (.configFileNotFound
        (pathJoin (pathJoin C3cfg.projects_base_dir "pn") "missing.cfg")) :=
  ⟨(claim_C3_config_resolution_failures C3cfg "asctg" "pn" "pf.xml" none none
      none false none none C3env trivialCompileEnv C3tool "asctg-bin"
      ⟨"-c", none⟩ (by decide) (by decide) (by decide) (by decide) (by decide)
      (by decide) (by decide)).1 (by decide),
    (claim_C3_config_resolution_failures C3cfg "asctg" "pn" "pf.xml" none none
      (some "missing.cfg") false none none C3env trivialCompileEnv C3tool
      "asctg-bin" ⟨"-c", none⟩ (by decide) (by decide) (by decide) (by decide)
      (by decide) (by decide) (by decide)).2 "missing.cfg" rfl (by decide)
      (by decide)⟩

/-- C4: the collector output is lexicographically sorted and contains a
path exactly when it comes from a regular file of the directory whose
name ends with one of the declared extensions (each extension globbed
non-recursively, matches concatenated before sorting); and on a
successful project run (exit code 0) the returned generated_files is
exactly the collector output for the project directory and the contract
extensions. -/
theorem claim_C4_outputs_sorted_exact :
    (∀ (dir : String) (listing : List Entry) (exts : List String),
      (find_output_files dir listing exts).Pairwise (fun a b => strLe a b = true))
    ∧ (∀ (dir : String) (listing : List Entry) (exts : List String) (q : String),
      q ∈ find_output_files dir listing exts ↔
        ∃ e ∈ listing, e.isFile = true ∧
          (∃ ext ∈ exts, endswith e.name ext = true) ∧ q = pathJoin dir e.name)
    ∧ (∀ (cfg : Config) (tool_id project_name project_file : String)
        (verbose : Option Int) (checker config_file : Option String)
        (compile : Bool) (log_library : Option String)
        (cmake_options : Option (List String)) (env : ProjectEnv)
        (cenv : CompileEnv) (r : ProjectResult) (tc : ToolConfig),
      cfg.get_tool tool_id = some tc →
      execute_in_project cfg tool_id project_name project_file verbose checker
        config_file compile log_library cmake_options env cenv = .ok r →
      r.return_code = 0 →
      r.generated_files = find_output_files
        (pathJoin cfg.projects_base_dir project_name) env.listing
        tc.output_types) := by
  refine ⟨fun dir listing exts => pairwise_pySorted _,
    mem_find_output_files, ?_⟩
  intro cfg tool_id project_name project_file verbose checker config_file
    compile log_library cmake_options env cenv r tc htool h hrc
  simp only [execute_in_project, htool] at h
  split at h
  · exact absurd h (by simp)
  split at h
  · exact absurd h (by simp)
  split at h
  · exact absurd h (by simp)
  split at h
  · exact absurd h (by simp)
  split at h
  · exact absurd h (by simp)
  split at h
  · exact absurd h (by simp)
  split at h
  · injection h with h
    subst h
    simp only [] at hrc ⊢
    simp [hrc]
  · injection h with h
    subst h
    simp at hrc
  · injection h with h
    subst h
    simp at hrc

/-- Witness for C4: a successful concrete project run over a mixed
directory listing, with the claim theorem applied to it; the collector
result is the sorted pair of matching regular files. -/
theorem claim_C4_witness :
    C4cfg.get_tool "t" = some C4tool
    ∧ execute_in_project C4cfg "t" "pn" "pf.xml" none none none false none
      none C4env trivialCompileEnv = .ok C4res
    ∧ C4res.return_code = 0
    ∧ C4res.generated_files = find_output_files
      (pathJoin C4cfg.projects_base_dir "pn") C4env.listing
      C4tool.output_types :=
  ⟨by decide, by decide, by decide,
    claim_C4_outputs_sorted_exact.2.2 C4cfg "t" "pn" "pf.xml" none none none
      false none none C4env trivialCompileEnv C4res C4tool (by decide)
      (by decide) (by decide)⟩

/-- C5 counterexample record (the claim is a code bug): the run input
in.h ends with the declared extension .h, and the collector returns it;
both at the collector itself and through the whole standalone path,
where the input reappears (as its archived copy) in output_files. The
collector is not even told which file was the input, so it cannot
exclude it, although the source comment at line 178 says it is skipped. -/
theorem claim_C5_input_file_collected :
    find_output_files "/d" [⟨"in.h", true⟩] [".h"] = ["/d/in.h"]
    ∧ execute C5cfg "t" "/d/in.h" none C5env = .ok C5res
    ∧ C5res.output_files = ["/o5/t_ts/in.h"] :=
  ⟨by decide, by decide, by decide⟩

/-- C6: the build orchestrator is a total function into result records
(so nothing ever escapes to the caller); a timeout in the configure
stage, a timeout in the build stage, and absence of the build descriptor
each yield compile_success false, no executables and the stage-specific
message; and on the merged path the success flag of the tool run equals
the exit-code test of the tool process alone, for every build
environment. -/
theorem claim_C6_build_failures_returned :
    (∀ (cfg : Config) (env : CompileEnv) (pp ll : String)
        (co : Option (List String)) (t : Int) (d : String),
      find_cmakelists_dir env pp = some d →
      (∀ a, env.run_cmake a = .timedOut) →
      compile_project cfg env pp ll co t = timeoutCompileResult)
    ∧ (∀ (cfg : Config) (env : CompileEnv) (pp ll : String)
        (co : Option (List String)) (t : Int) (d cout cerr : String),
      find_cmakelists_dir env pp = some d →
      (∀ a, env.run_cmake a = .completed 0 cout cerr) →
      (∀ a, env.run_make a = .timedOut) →
      compile_project cfg env pp ll co t = timeoutCompileResult)
    ∧ (∀ (cfg : Config) (env : CompileEnv) (pp ll : String)
        (co : Option (List String)) (t : Int),
      find_cmakelists_dir env pp = none →
      compile_project cfg env pp ll co t = notFoundCompileResult pp)
    ∧ (∀ (cfg : Config) (tool_id project_name project_file : String)
        (verbose : Option Int) (checker config_file : Option String)
        (compile : Bool) (log_library : Option String)
        (cmake_options : Option (List String)) (env : ProjectEnv)
        (cenv : CompileEnv) (r : ProjectResult) (rc : Int) (out err : String),
      (∀ a, env.run a = .completed rc out err) →
      execute_in_project cfg tool_id project_name project_file verbose checker
        config_file compile log_library cmake_options env cenv = .ok r →
      r.success = (rc == 0))
    ∧ (timeoutCompileResult.compile_success = false
      ∧ timeoutCompileResult.executable_files = []
      ∧ timeoutCompileResult.compile_stderr = "Compilation timeout"
      ∧ ∀ pp, (notFoundCompileResult pp).compile_success = false
        ∧ (notFoundCompileResult pp).executable_files = []
        ∧ (notFoundCompileResult pp).compile_stderr =
            "CMakeLists.txt not found in project: " ++ pp) := by
  refine ⟨?_, ?_, ?_, ?_, rfl, rfl, rfl, fun pp => ⟨rfl, rfl, rfl⟩⟩
  · intro cfg env pp ll co t d hdir hcm
    simp [compile_project, hdir, hcm]
  · intro cfg env pp ll co t d cout cerr hdir hcm hmk
    simp [compile_project, hdir, hcm, hmk]
  · intro cfg env pp ll co t hdir
    simp [compile_project, hdir]
  · intro cfg tool_id project_name project_file verbose checker config_file
      compile log_library cmake_options env cenv r rc out err hrun h
    simp only [execute_in_project, hrun] at h
    split at h
    · exact absurd h (by simp)
    split at h
    · exact absurd h (by simp)
    split at h
    · exact absurd h (by simp)
    split at h
    · exact absurd h (by simp)
    split at h
    · exact absurd h (by simp)
    split at h
    · exact absurd h (by simp)
    split at h
    · exact absurd h (by simp)
    injection h with h
    subst h
    rfl

/-- Witness for C6: concrete cmake-timeout, make-timeout and
descriptor-missing builds, and a concrete successful merged run whose
success flag equals the exit-code test. -/
theorem claim_C6_witness :
    compile_project C6cfg C6cenvA "/pp" "log4cplus" none 600 = timeoutCompileResult
    ∧ compile_project C6cfg C6cenvB "/pp" "log4cplus" none 600 = timeoutCompileResult
    ∧ compile_project C6cfg trivialCompileEnv "/pp" "log4cplus" none 600 =
        notFoundCompileResult "/pp"
    ∧ execute_in_project C6cfg "t" "pn" "pf.xml" none none none false none
        none C6penv trivialCompileEnv = .ok C6res
    ∧ C6res.success = ((0 : Int) == 0) :=
  ⟨claim_C6_build_failures_returned.1 C6cfg C6cenvA "/pp" "log4cplus" none 600
      "/pp/6-output" (by decide) (fun _ => rfl),
    claim_C6_build_failures_returned.2.1 C6cfg C6cenvB "/pp" "log4cplus" none
      600 "/pp/6-output" "co" "ce" (by decide) (fun _ => rfl) (fun _ => rfl),
    claim_C6_build_failures_returned.2.2.1 C6cfg trivialCompileEnv "/pp"
      "log4cplus" none 600 (by decide),
    by decide,
    claim_C6_build_failures_returned.2.2.2.1 C6cfg "t" "pn" "pf.xml" none none
      none false none none C6penv trivialCompileEnv C6res 0 "" ""
      (fun _ => rfl) (by decide)⟩

/-- C7: the make stage runs only when cmake exited 0 (when cmake fails,
the result does not depend on the make runner at all); the synthetic
non-executed make result gives exit code -1 and the explanatory stderr;
and overall compile_success equals configure-succeeded AND
build-succeeded. -/
theorem claim_C7_make_gated_on_cmake :
    (∀ (cfg : Config) (env : CompileEnv) (pp ll : String)
        (co : Option (List String)) (t : Int) (d : String) (rc : Int)
        (cout cerr : String),
      find_cmakelists_dir env pp = some d →
      (∀ a, env.run_cmake a = .completed rc cout cerr) →
      (rc == 0) = false →
      (compile_project cfg env pp ll co t).compile_return_code = -1
      ∧ (compile_project cfg env pp ll co t).compile_stderr =
          pyStrip ("=== CMake Errors ===\n" ++ cerr ++ "\n" ++
            "=== Make Errors ===\n" ++ "CMake failed, make not executed" ++ "\n")
      ∧ ∀ rm1 rm2, compile_project cfg { env with run_make := rm1 } pp ll co t
          = compile_project cfg { env with run_make := rm2 } pp ll co t)
    ∧ (∀ (cfg : Config) (env : CompileEnv) (pp ll : String)
        (co : Option (List String)) (t : Int) (d : String)
        (o1 o2 : ProcResult),
      find_cmakelists_dir env pp = some d →
      (∀ a, env.run_cmake a = o1) →
      (∀ a, env.run_make a = o2) →
      (compile_project cfg env pp ll co t).compile_success =
        (isSuccessOutcome o1 && isSuccessOutcome o2)) := by
  constructor
  · intro cfg env pp ll co t d rc cout cerr hdir hcm hrc
    refine ⟨?_, ?_, ?_⟩
    · simp [compile_project, hdir, hcm, hrc]
    · simp [compile_project, hdir, hcm, hrc]
    · intro rm1 rm2
      have hdir1 : find_cmakelists_dir { env with run_make := rm1 } pp = some d := hdir
      have hdir2 : find_cmakelists_dir { env with run_make := rm2 } pp = some d := hdir
      have hcm1 : ∀ a, ({ env with run_make := rm1 } : CompileEnv).run_cmake a =
        .completed rc cout cerr := hcm
      have hcm2 : ∀ a, ({ env with run_make := rm2 } : CompileEnv).run_cmake a =
        .completed rc cout cerr := hcm
      simp [compile_project, hdir, hdir1, hdir2, hcm, hcm1, hcm2, hrc]
  · intro cfg env pp ll co t d o1 o2 hdir h1 h2
    cases o1 with
    | timedOut =>
      simp [compile_project, hdir, h1, isSuccessOutcome, timeoutCompileResult]
    | failed m =>
      simp [compile_project, hdir, h1, isSuccessOutcome, unexpectedCompileResult]
    | completed rc cout cerr =>
      by_cases hrc : (rc == 0) = true
      · cases o2 with
        | timedOut =>
          simp [compile_project, hdir, h1, h2, hrc, isSuccessOutcome,
            timeoutCompileResult]
        | failed m =>
          simp [compile_project, hdir, h1, h2, hrc, isSuccessOutcome,
            unexpectedCompileResult]
        | completed mrc mout merr =>
          simp [compile_project, hdir, h1, h2, hrc, isSuccessOutcome]
      · have hrc' : (rc == 0) = false := by simpa using hrc
        simp [compile_project, hdir, h1, hrc', isSuccessOutcome]

/-- Witness for C7: with cmake failing (exit 1) the synthetic make exit
code -1 is returned and swapping the make runner changes nothing; with
both stages succeeding, compile_success is the conjunction of the two
stage outcomes. -/
theorem claim_C7_witness :
    (compile_project C6cfg C7cenvFail "/pp" "log4cplus" none 600).compile_return_code = -1
    ∧ compile_project C6cfg { C7cenvFail with run_make := fun _ => .timedOut }
        "/pp" "log4cplus" none 600 =
      compile_project C6cfg { C7cenvFail with run_make := fun _ => .completed 0 "" "" }
        "/pp" "log4cplus" none 600
    ∧ (compile_project C6cfg C7cenvOK "/pp" "log4cplus" none 600).compile_success =
        (isSuccessOutcome (.completed 0 "a" "b") && isSuccessOutcome (.completed 0 "c" "d")) :=
  ⟨(claim_C7_make_gated_on_cmake.1 C6cfg C7cenvFail "/pp" "log4cplus" none 600
      "/pp/6-output" 1 "co" "ce" (by decide) (fun _ => rfl) (by decide)).1,
    (claim_C7_make_gated_on_cmake.1 C6cfg C7cenvFail "/pp" "log4cplus" none 600
      "/pp/6-output" 1 "co" "ce" (by decide) (fun _ => rfl) (by decide)).2.2
      (fun _ => .timedOut) (fun _ => .completed 0 "" ""),
    claim_C7_make_gated_on_cmake.2 C6cfg C7cenvOK "/pp" "log4cplus" none 600
      "/pp/6-output" (.completed 0 "a" "b") (.completed 0 "c" "d") (by decide)
      (fun _ => rfl) (fun _ => rfl)⟩

/-- The timeout message is distinct from every message the exit-code
classifier can produce for the same tool. -/
theorem get_message_ne_timeout (rc : Int) (t : String) :
    get_message rc t ≠ "Tool execution timeout: " ++ t := by
  intro h
  have e1 : ("Tool " : String).length = 5 := by decide
  have e2 : (" executed successfully" : String).length = 22 := by decide
  have e3 : (" execution failed" : String).length = 17 := by decide
  have e4 : (" execution failed with code " : String).length = 28 := by decide
  have e5 : ("Tool execution timeout: " : String).length = 24 := by decide
  unfold get_message at h
  split_ifs at h with h0 hneg
  · have hl := congrArg String.length h
    simp only [String.length_append, e1, e2, e5] at hl
    omega
  · have hl := congrArg String.length h
    simp only [String.length_append, e1, e3, e5] at hl
    omega
  · have hl := congrArg String.length h
    simp only [String.length_append, e1, e4, e5] at hl
    omega

/-- C8: a wall-clock timeout on either entry point yields success false,
return code -1 and the timeout message, returned as a value (never an
exception); and that message differs from every exit-code-derived
message and from the generic execution-error message. -/
theorem claim_C8_timeout_result :
    (∀ (cfg : Config) (tool_id input_file : String) (verbose : Option Int)
        (env : ExecuteEnv) (tc : ToolConfig) (c : String),
      cfg.get_tool tool_id = some tc → tc.command = some c →
      (c == "") = false → env.input_file_exists = true →
      (∀ a, env.run a = .timedOut) →
      execute cfg tool_id input_file verbose env = .ok
        { success := false, tool := tool_id, command := c,
          input_file := input_file, output_files := [], stdout := "",
          stderr := "Execution timeout (5 minutes)", return_code := -1,
          message := "Tool execution timeout: " ++ tool_id })
    ∧ (∀ (cfg : Config) (tool_id project_name project_file : String)
        (verbose : Option Int) (checker config_file : Option String)
        (compile : Bool) (log_library : Option String)
        (cmake_options : Option (List String)) (env : ProjectEnv)
        (cenv : CompileEnv) (tc : ToolConfig) (c : String),
      cfg.get_tool tool_id = some tc → tc.command = some c →
      (c == "") = false →
      tc.parameters.find? (fun q => q.flag == "-c") = none →
      env.path_exists (pathJoin cfg.projects_base_dir project_name) = true →
      env.is_dir (pathJoin cfg.projects_base_dir project_name) = true →
      env.path_exists
        (pathJoin (pathJoin cfg.projects_base_dir project_name) project_file) = true →
      (∀ a, env.run a = .timedOut) →
      execute_in_project cfg tool_id project_name project_file verbose checker
        config_file compile log_library cmake_options env cenv = .ok
        { success := false, tool := tool_id, project_name := project_name,
          project_path := pathJoin cfg.projects_base_dir project_name,
          project_file := project_file, generated_files := [], stdout := "",
          stderr := "Execution timeout (5 minutes)", return_code := -1,
          message := "Tool execution timeout: " ++ tool_id,
          compileResult := none })
    ∧ (∀ (rc : Int) (t : String),
        get_message rc t ≠ "Tool execution timeout: " ++ t)
    ∧ (∀ (m t : String),
        "Execution error: " ++ m ≠ "Tool execution timeout: " ++ t) := by
  refine ⟨?_, ?_, get_message_ne_timeout, ?_⟩
  · intro cfg tool_id input_file verbose env tc c htool hcmd hcne hife hrun
    simp [execute, htool, hcmd, hcne, hife, hrun]
  · intro cfg tool_id project_name project_file verbose checker config_file
      compile log_library cmake_options env cenv tc c htool hcmd hcne hparam
      hpe hdir hpf hrun
    simp [execute_in_project, htool, hcmd, hcne, hparam, hpe, hdir, hpf, hrun]
  · intro m t h
    have hd := congrArg String.data h
    simp only [String.data_append] at hd
    simp at hd

/-- Witness for C8: concrete timed-out standalone and project runs, with
the claim theorem applied to each, and its message-distinctness parts
instantiated at the concrete tool and exit code. -/
theorem claim_C8_witness :
    execute C8cfg "t" "/d/in.xml" none C8env = .ok
      { success := false, tool := "t", command := "tb8",
        input_file := "/d/in.xml", output_files := [], stdout := "",
        stderr := "Execution timeout (5 minutes)", return_code := -1,
        message := "Tool execution timeout: t" }
    ∧ execute_in_project C8cfg "t" "pn" "pf.xml" none none none false none
        none C8penv trivialCompileEnv = .ok
      { success := false, tool := "t", project_name := "pn",
        project_path := pathJoin C8cfg.projects_base_dir "pn",
        project_file := "pf.xml", generated_files := [], stdout := "",
        stderr := "Execution timeout (5 minutes)", return_code := -1,
        message := "Tool execution timeout: t", compileResult := none }
    ∧ get_message 1 "t" ≠ "Tool execution timeout: " ++ "t"
    ∧ "Execution error: " ++ "boom" ≠ "Tool execution timeout: " ++ "t" := by
  refine ⟨?_, ?_, claim_C8_timeout_result.2.2.1 1 "t",
    claim_C8_timeout_result.2.2.2 "boom" "t"⟩
  · have := claim_C8_timeout_result.1 C8cfg "t" "/d/in.xml" none C8env C8tool
      "tb8" (by decide) (by decide) (by decide) (by decide) (fun _ => rfl)
    simpa using this
  · have := claim_C8_timeout_result.2.1 C8cfg "t" "pn" "pf.xml" none none none
      false none none C8penv trivialCompileEnv C8tool "tb8" (by decide)
      (by decide) (by decide) (by decide) (by decide) (by decide) (by decide)
      (fun _ => rfl)
    simpa using this

/-- C9: a project result carries the merged build fields exactly when the
tool run succeeded, a build was requested and the tool is ldp; and when
the tool run fails, the whole result is independent of the build
environment, so the orchestrator is never consulted. -/
theorem claim_C9_build_fields_iff_attempted :
    (∀ (cfg : Config) (tool_id project_name project_file : String)
        (verbose : Option Int) (checker config_file : Option String)
        (compile : Bool) (log_library : Option String)
        (cmake_options : Option (List String)) (env : ProjectEnv)
        (cenv : CompileEnv) (r : ProjectResult),
      execute_in_project cfg tool_id project_name project_file verbose checker
        config_file compile log_library cmake_options env cenv = .ok r →
      r.compileResult.isSome = (r.success && compile && (tool_id == "ldp")))
    ∧ (∀ (cfg : Config) (tool_id project_name project_file : String)
        (verbose : Option Int) (checker config_file : Option String)
        (compile : Bool) (log_library : Option String)
        (cmake_options : Option (List String)) (pe isd : String → Bool)
        (listing : List Entry) (rc : Int) (out err : String)
        (ce1 ce2 : CompileEnv),
      (rc == 0) = false →
      execute_in_project cfg tool_id project_name project_file verbose checker
        config_file compile log_library cmake_options
        ⟨pe, isd, listing, fun _ => .completed rc out err⟩ ce1 =
      execute_in_project cfg tool_id project_name project_file verbose checker
        config_file compile log_library cmake_options
        ⟨pe, isd, listing, fun _ => .completed rc out err⟩ ce2) := by
  constructor
  · intro cfg tool_id project_name project_file verbose checker config_file
      compile log_library cmake_options env cenv r h
    simp only [execute_in_project] at h
    split at h
    · exact absurd h (by simp)
    split at h
    · exact absurd h (by simp)
    split at h
    · exact absurd h (by simp)
    split at h
    · exact absurd h (by simp)
    split at h
    · exact absurd h (by simp)
    split at h
    · exact absurd h (by simp)
    split at h
    · exact absurd h (by simp)
    split at h
    · injection h with h
      subst h
      rename_i rc out err hrun
      cases hrc : (rc == 0) <;> cases compile <;>
        by_cases ht : tool_id = "ldp" <;> simp_all
    · injection h with h
      subst h
      simp
    · injection h with h
      subst h
      simp
  · intro cfg tool_id project_name project_file verbose checker config_file
      compile log_library cmake_options pe isd listing rc out err ce1 ce2 h
    cases htool : cfg.get_tool tool_id with
    | none => simp [execute_in_project, htool]
    | some tc =>
      cases hcmd : tc.command with
      | none => simp [execute_in_project, htool, hcmd]
      | some c =>
        simp [execute_in_project, htool, hcmd, h]

/-- Witness for C9: a failing run of the build-capable tool ldp with a
build requested yields a result without build fields, and swapping the
build environment for an observably different one leaves the entire
result unchanged. -/
theorem claim_C9_witness :
    execute_in_project C9cfg "ldp" "pn" "pf.xml" none none none true none
      none C9penv trivialCompileEnv = .ok C9res
    ∧ C9res.compileResult.isSome = (C9res.success && true && ("ldp" == "ldp"))
    ∧ execute_in_project C9cfg "ldp" "pn" "pf.xml" none none none true none
        none C9penv trivialCompileEnv =
      execute_in_project C9cfg "ldp" "pn" "pf.xml" none none none true none
        none C9penv C9cenvAlt :=
  ⟨by decide,
    claim_C9_build_fields_iff_attempted.1 C9cfg "ldp" "pn" "pf.xml" none none
      none true none none C9penv trivialCompileEnv C9res (by decide),
    claim_C9_build_fields_iff_attempted.2 C9cfg "ldp" "pn" "pf.xml" none none
      none true none none (fun _ => true) (fun _ => true) [] 1 "" ""
      trivialCompileEnv C9cenvAlt (by decide)⟩

/-- C10 (implicit behavior): a caller-supplied config_file or checker is
appended to the argv as -c and -k even when the contract declares no
parameter with that flag, and in the undeclared-config case the file
existence inside the project directory is not checked: with the file
absent, the call still reaches the runner and returns its exit code. -/
theorem claim_C10_undeclared_flags_forwarded :
    ∀ (cfg : Config) (tool_id project_name project_file : String)
      (verbose : Option Int) (c k : String) (compile : Bool)
      (log_library : Option String) (cmake_options : Option (List String))
      (env : ProjectEnv) (cenv : CompileEnv) (tc : ToolConfig)
      (cmdStr : String) (rc : Int) (out err : String),
      cfg.get_tool tool_id = some tc →
      tc.command = some cmdStr → (cmdStr == "") = false →
      tc.parameters.find? (fun q => q.flag == "-c") = none →
      tc.parameters.find? (fun q => q.flag == "-k") = none →
      (c == "") = false → (k == "") = false →
      env.path_exists (pathJoin cfg.projects_base_dir project_name) = true →
      env.is_dir (pathJoin cfg.projects_base_dir project_name) = true →
      env.path_exists
        (pathJoin (pathJoin cfg.projects_base_dir project_name) project_file) = true →
      env.path_exists
        (pathJoin (pathJoin cfg.projects_base_dir project_name) c) = false →
      (∀ a, env.run a = .completed rc out err) →
      buildCmd cmdStr project_file (some c) (some k)
          (tc.verbose_type.getD "boolean") (verbose.getD cfg.verbose)
        = [cmdStr, "-p", project_file, "-c", c, "-k", k]
          ++ (if (tc.verbose_type.getD "boolean") == "boolean" then ["-v"]
              else ["-v", toString (verbose.getD cfg.verbose)])
      ∧ (execute_in_project cfg tool_id project_name project_file verbose
          (some k) (some c) compile log_library cmake_options env cenv).map
          (fun r => r.return_code) = .ok rc := by
  intro cfg tool_id project_name project_file verbose c k compile log_library
    cmake_options env cenv tc cmdStr rc out err htool hcmd hcne hcparam
    hkparam hc hk hpe hdir hpf hnof hrun
  constructor
  · by_cases hv : ((tc.verbose_type.getD "boolean") == "boolean") = true
    · simp [buildCmd, pyTruthy, pyGet, hc, hk, hv]
    · have hv' : ((tc.verbose_type.getD "boolean") == "boolean") = false := by
        simpa using hv
      simp [buildCmd, pyTruthy, pyGet, hc, hk, hv']
  · simp [execute_in_project, htool, hcmd, hcne, hcparam, hkparam,
      resolve_checker, hpe, hdir, hpf, hrun, Except.map]

/-- Witness for C10: the tool declares no parameters; the caller supplies
checker chk and config_file nope.cfg, which does not exist in the
project directory; the argv contains -c nope.cfg and -k chk, no error is
raised, and the runner exit code 7 is returned. -/
theorem claim_C10_witness :
    buildCmd "xb" "pf.xml" (some "nope.cfg") (some "chk")
        (C10tool.verbose_type.getD "boolean")
        ((none : Option Int).getD C10cfg.verbose)
      = ["xb", "-p", "pf.xml", "-c", "nope.cfg", "-k", "chk"]
        ++ (if (C10tool.verbose_type.getD "boolean") == "boolean" then ["-v"]
            else ["-v", toString ((none : Option Int).getD C10cfg.verbose)])
    ∧ (execute_in_project C10cfg "t" "pn" "pf.xml" none (some "chk")
        (some "nope.cfg") false none none C10env trivialCompileEnv).map
        (fun r => r.return_code) = .ok 7 :=
  claim_C10_undeclared_flags_forwarded C10cfg "t" "pn" "pf.xml" none
    "nope.cfg" "chk" false none none C10env trivialCompileEnv C10tool "xb" 7
    "" "" (by decide) (by decide) (by decide) (by decide) (by decide)
    (by decide) (by decide) (by decide) (by decide) (by decide) (by decide)
    (fun _ => rfl)

end Ecoa
